import Mathlib

/-!
Shallow embedding of the FTP-Client reconciliation engine
(`src/ftp_client.py`, class `FTPClient`).

Python values loaded from the ledger JSON file are modelled by `Json`;
Python runtime errors that the embedded code can raise are modelled by
`PyError`.  The FTP transport, the remote listing and the local
filesystem are oracles collected in `World`; the mutable attributes of
the `FTPClient` instance (plus the on-disk history file and two ghost
observables, the logger messages and the attempted RETR transfers) form
`ClientState`.
-/

/-- A JSON value as produced by Python's `json.load`. -/
inductive Json
  | null
  | bool (b : Bool)
  | num (n : Int)
  | str (s : String)
  | arr (elems : List Json)
  | obj (fields : List (String × Json))

/-- Python runtime errors raised by the embedded code paths
(`sys.exit` is modelled as an error that terminates the invocation). -/
inductive PyError
  | typeError
  | attributeError
  | valueError
  | remoteError
  | systemExit
  deriving DecidableEq

/-- First-match lookup of a key in a JSON object's field list
(Python `dict` keys are unique, so first-match agrees with `dict.get`). -/
def lookupField (k : String) : List (String × Json) → Option Json
  | [] => none
  | (k2, v) :: rest => if k == k2 then some v else lookupField k rest

mutual

/-- Python `==` on values loaded from JSON: `True == 1` and `False == 0`
hold (bool is a subclass of int), dict comparison is key-based and
order-insensitive, values of unrelated types compare unequal. -/
def pyEq : Json → Json → Bool
  | Json.null, Json.null => true
  | Json.bool a, Json.bool b => a == b
  | Json.bool a, Json.num n => if a then n == 1 else n == 0
  | Json.num n, Json.bool b => if b then n == 1 else n == 0
  | Json.num a, Json.num b => a == b
  | Json.str a, Json.str b => a == b
  | Json.arr xs, Json.arr ys => pyEqList xs ys
  | Json.obj xs, Json.obj ys => xs.length == ys.length && pyEqFields xs ys
  | _, _ => false

/-- Pointwise Python `==` on lists. -/
def pyEqList : List Json → List Json → Bool
  | [], [] => true
  | x :: xs, y :: ys => pyEq x y && pyEqList xs ys
  | _, _ => false

/-- Every field of the first object is present with an equal value in
the second (with unique keys and equal lengths this is dict equality). -/
def pyEqFields : List (String × Json) → List (String × Json) → Bool
  | [], _ => true
  | (k, v) :: xs, ys =>
    (match lookupField k ys with
     | some w => pyEq v w
     | none => false) && pyEqFields xs ys

end

/-- Python `len(x)`: defined for strings, lists and dicts, `TypeError`
otherwise. -/
def pyLen : Json → Except PyError Nat
  | Json.str s => Except.ok s.length
  | Json.arr l => Except.ok l.length
  | Json.obj l => Except.ok l.length
  | _ => Except.error PyError.typeError

/-- Python iteration `for x in v`: a list yields its elements, a dict
its keys, a string its one-character substrings; other values raise
`TypeError`. -/
def pyIter : Json → Except PyError (List Json)
  | Json.arr l => Except.ok l
  | Json.obj l => Except.ok (l.map (fun kv => Json.str kv.1))
  | Json.str s => Except.ok (s.data.map (fun c => Json.str (String.mk [c])))
  | _ => Except.error PyError.typeError

/-- Python `v.append(x)`: only lists have `append`; other values raise
`AttributeError`. -/
def pyAppend (v x : Json) : Except PyError Json :=
  match v with
  | Json.arr l => Except.ok (Json.arr (l ++ [x]))
  | _ => Except.error PyError.attributeError

/-- Python `isinstance(v, str)` for JSON-loaded values. -/
def isinstanceStr : Json → Bool
  | Json.str _ => true
  | _ => false

/-- Python `isinstance(v, int)` for JSON-loaded values: `bool` is a
subclass of `int`, so JSON `true`/`false` also pass. -/
def isinstanceInt : Json → Bool
  | Json.num _ => true
  | Json.bool _ => true
  | _ => false

/-- The `FTPFile` namedtuple: `(name, size, modified_date)`. -/
structure FTPFile where
  name : String
  size : Int
  modified_date : String
  deriving DecidableEq

/-- `dict(file_info._asdict())`: the namedtuple as a Python dict in
declaration order. -/
def asdict (f : FTPFile) : Json :=
  Json.obj
    [("name", Json.str f.name),
     ("size", Json.num f.size),
     ("modified_date", Json.str f.modified_date)]

/-- Value of an ASCII digit character. -/
def digitVal (c : Char) : Nat := c.toNat - 48

/-- Continuation of `pyIntDigits`: digits with single underscores
allowed between digits (Python numeric-literal rule used by `int`). -/
def pyIntDigitsGo (acc : Nat) : List Char → Option Nat
  | [] => some acc
  | c :: rest =>
    if c.isDigit then pyIntDigitsGo (acc * 10 + digitVal c) rest
    else if c == '_' then
      match rest with
      | d :: rest2 =>
        if d.isDigit then pyIntDigitsGo (acc * 10 + digitVal d) rest2 else none
      | [] => none
    else none

/-- Parse a nonempty unsigned digit string as Python `int` does
(underscores permitted between digits only). -/
def pyIntDigits : List Char → Option Nat
  | [] => none
  | c :: rest => if c.isDigit then pyIntDigitsGo (digitVal c) rest else none

/-- Python `int(s)` on a whitespace-free token: optional single sign
then digits; `none` models the `ValueError`. -/
def pyIntOfString (s : String) : Option Int :=
  match s.data with
  | '+' :: rest => (pyIntDigits rest).map (fun n => (n : Int))
  | '-' :: rest => (pyIntDigits rest).map (fun n => -(n : Int))
  | cs => (pyIntDigits cs).map (fun n => (n : Int))

/-- Worker for `pySplit`: accumulate the current token (reversed) while
scanning; whitespace ends a token, empty tokens are dropped. -/
def pySplitAux (cur : List Char) : List Char → List String
  | [] => if cur.isEmpty then [] else [String.mk cur.reverse]
  | c :: rest =>
    if c.isWhitespace then
      if cur.isEmpty then pySplitAux [] rest
      else String.mk cur.reverse :: pySplitAux [] rest
    else pySplitAux (c :: cur) rest

/-- Python `str.split()` with no argument: split on runs of whitespace,
discarding empty pieces. -/
def pySplit (s : String) : List String :=
  pySplitAux [] s.data

/-- Python `' '.join(parts)`. -/
def joinWithSpace : List String → String
  | [] => ""
  | [t] => t
  | t :: rest => t ++ " " ++ joinWithSpace rest

/-- `__split_file_infos_from_strings` applied to one listing line:
`_, _, _, _, file_size, *modified_date_as_list, file_name = line.split()`
(raising `ValueError` when fewer than 6 tokens), then
`FTPFile(file_name, int(file_size), ' '.join(modified_date_as_list))`. -/
def parseLine (line : String) : Except PyError FTPFile :=
  let toks := pySplit line
  if 6 ≤ toks.length then
    match pyIntOfString (toks.getD 4 "") with
    | some n =>
      Except.ok ⟨toks.getLastD "", n, joinWithSpace ((toks.drop 5).dropLast)⟩
    | none => Except.error PyError.valueError
  else Except.error PyError.valueError

/-- `__split_file_infos_from_strings`: parse every raw listing line;
the first malformed line aborts the whole conversion. -/
def splitFileInfosFromStrings (lines : List String) : Except PyError (List FTPFile) :=
  lines.mapM parseLine

/-- Suffix of a character list starting at its last dot, `[]` when it
has no dot. -/
def extFrom : List Char → List Char
  | [] => []
  | c :: rest =>
    let e := extFrom rest
    if e.isEmpty then (if c == '.' then c :: rest else []) else e

/-- Characters of the POSIX basename: everything after the last `/`. -/
def basenameChars (cs : List Char) : List Char :=
  (cs.reverse.takeWhile (fun c => c != '/')).reverse

/-- Extension part of `os.path.splitext` (POSIX): the suffix of the
basename from its last dot, except that leading dots of the basename
never start an extension. -/
def splitextExt (p : String) : String :=
  let base := basenameChars p.data
  let trimmed := base.dropWhile (fun c => c == '.')
  String.mk (extFrom trimmed)

/-- Whether a string starts with `/`. -/
def headIsSlash (b : String) : Bool :=
  match b.data with
  | c :: _ => c == '/'
  | [] => false

/-- Whether a string ends with `/`. -/
def lastIsSlash (a : String) : Bool :=
  match a.data.getLast? with
  | some c => c == '/'
  | none => false

/-- `os.path.join` (POSIX) for two components. -/
def osPathJoin (a b : String) : String :=
  if headIsSlash b then b
  else if a.data.isEmpty || lastIsSlash a then a ++ b
  else a ++ "/" ++ b

/-- `__update_file_info_name_with_path`: a fresh `FTPFile` whose name is
the path joined with the original name. -/
def updateFileInfoNameWithPath (path : String) (f : FTPFile) : FTPFile :=
  ⟨osPathJoin path f.name, f.size, f.modified_date⟩

/-- External collaborators: the remote listing, the SIZE probe
(`none` = the server raised), the RETR transfer (`false` = it raised),
and whether `cwd` raises for a path. -/
structure World where
  server : String → List String
  probeSize : String → Option Int
  transfer : String → Bool
  cwdFails : String → Bool

/-- `__is_directory`: extension heuristic, optionally combined with a
remote SIZE probe; `have_filesize` starts `True` and becomes `False`
exactly when the probe raises. -/
def isDirectory (requestCheckIsDir : Bool) (probe : String → Option Int)
    (filename : String) : Bool :=
  let extension := splitextExt filename
  let have_filesize := if requestCheckIsDir then (probe filename).isSome else true
  extension == "" && have_filesize

/-- `__split_files_and_directories`: partition a listing into files and
directories, preserving order, using `__is_directory`. -/
def splitFilesAndDirectories (w : World) (requestCheckIsDir : Bool) :
    List FTPFile → List FTPFile × List FTPFile
  | [] => ([], [])
  | f :: rest =>
    let pr := splitFilesAndDirectories w requestCheckIsDir rest
    if isDirectory requestCheckIsDir w.probeSize f.name
    then (pr.1, f :: pr.2)
    else (f :: pr.1, pr.2)

/-- State of the history file on disk: absent, present but not
parseable as JSON, or present with a parsed JSON value. -/
inductive LedgerFile
  | missing
  | invalid
  | content (j : Json)

/-- Mutable attributes of the `FTPClient` instance together with the
history file on disk and two ghost observables: the logger messages
emitted and the remote paths for which a RETR transfer was attempted. -/
structure ClientState where
  files : List FTPFile
  directories : List FTPFile
  downloadedFiles : Json
  historyFilename : Option String
  fileCheckingFunction : Option (FTPFile → Bool)
  requestCheckIsDir : Bool
  ledgerFile : LedgerFile
  attempted : List String
  log : List String

/-- Attribute state right after `__init__`: empty caches and an empty
in-memory downloaded list, with the history file not yet touched. -/
def freshState (hist : Option String) (fcf : Option (FTPFile → Bool))
    (requestCheckIsDir : Bool) : ClientState :=
  { files := []
    directories := []
    downloadedFiles := Json.arr []
    historyFilename := hist
    fileCheckingFunction := fcf
    requestCheckIsDir := requestCheckIsDir
    ledgerFile := LedgerFile.missing
    attempted := []
    log := [] }

/-- Logger message of `__download` before the transfer. -/
def msgDownloading (p : String) : String := " Downloading " ++ p

/-- Logger message of `__download` when the transfer raised. -/
def msgFailedDownload (p : String) : String := "Failed to download " ++ p

/-- Logger message of `__append_json_to_list_in_file` on a missing store. -/
def msgCreatingHistory (fn : String) : String :=
  " Creating a new downloaded history file " ++ fn ++ "."

/-- First logger message of `__append_json_to_list_in_file` on an
unreadable store. -/
def msgUnableToReadAppend (fn : String) : String :=
  " Unable to read history downloaded file " ++ fn

/-- Second logger message of `__append_json_to_list_in_file` on an
unreadable store. -/
def msgIgnoredCreateNew : String := " Ignored and create a new one."

/-- First logger message of `__get_previously_downloaded_files` on an
undecodable store. -/
def msgUnableToReadLoad (fn : String) : String :=
  " Unable to read the history downloaded file " ++ fn ++ "."

/-- Second logger message of `__get_previously_downloaded_files` on an
undecodable store. -/
def msgIgnoredProceed : String := " Ignored and proceed to download the files."

/-- `__get_file_infos`: issue one LIST request, parse the raw lines and
join the request path onto every entry name. -/
def getFileInfos (w : World) (path : String) : Except PyError (List FTPFile) :=
  match splitFileInfosFromStrings (w.server path) with
  | Except.error e => Except.error e
  | Except.ok infos => Except.ok (infos.map (updateFileInfoNameWithPath path))

/-- `__update_files_and_directories_in_cwd`: one LIST request for the
current directory whose parsed partition replaces both caches; when the
listing raises, the caches are left untouched. -/
def updateFilesAndDirectoriesInCwd (w : World) (s : ClientState) :
    ClientState × Option PyError :=
  match getFileInfos w "" with
  | Except.error e => (s, some e)
  | Except.ok infos =>
    let pr := splitFilesAndDirectories w s.requestCheckIsDir infos
    ({ s with files := pr.1, directories := pr.2 }, none)

/-- `get_files`: for the default path reuse the cached file list when it
is nonempty, refreshing both caches otherwise; an explicit path always
issues a fresh LIST request and leaves the caches alone.  The third
component records the LIST requests issued. -/
def getFiles (w : World) (path : String) (s : ClientState) :
    Except PyError (List FTPFile) × ClientState × List String :=
  if path = "" then
    if s.files.isEmpty then
      match updateFilesAndDirectoriesInCwd w s with
      | (s1, some e) => (Except.error e, s1, [""])
      | (s1, none) => (Except.ok s1.files, s1, [""])
    else (Except.ok s.files, s, [])
  else
    match getFileInfos w path with
    | Except.error e => (Except.error e, s, [path])
    | Except.ok infos =>
      (Except.ok (splitFilesAndDirectories w s.requestCheckIsDir infos).1, s, [path])

/-- `get_directories`: mirror image of `get_files` over the directory
cache and the directory half of the partition. -/
def getDirectories (w : World) (path : String) (s : ClientState) :
    Except PyError (List FTPFile) × ClientState × List String :=
  if path = "" then
    if s.directories.isEmpty then
      match updateFilesAndDirectoriesInCwd w s with
      | (s1, some e) => (Except.error e, s1, [""])
      | (s1, none) => (Except.ok s1.directories, s1, [""])
    else (Except.ok s.directories, s, [])
  else
    match getFileInfos w path with
    | Except.error e => (Except.error e, s, [path])
    | Except.ok infos =>
      (Except.ok (splitFilesAndDirectories w s.requestCheckIsDir infos).2, s, [path])

/-- `cwd`: change the remote working directory, then clear both caches;
when the transport raises, the clearing never runs. -/
def cwdOp (w : World) (path : String) (s : ClientState) :
    ClientState × Option PyError :=
  if w.cwdFails path then (s, some PyError.remoteError)
  else ({ s with files := [], directories := [] }, none)

/-- Write-back phase of `__append_json_to_list_in_file`: dump the full
document to the store, then `self.__downloaded_files.append(x)`. -/
def appendWriteBack (x doc : Json) (s : ClientState) : ClientState × Option PyError :=
  let s2 := { s with ledgerFile := LedgerFile.content doc }
  match pyAppend s2.downloadedFiles x with
  | Except.error e => (s2, some e)
  | Except.ok d => ({ s2 with downloadedFiles := d }, none)

/-- `__append_json_to_list_in_file`: read the store (tolerating a
missing or unreadable file), append to the read list when it is
nonempty and start a fresh one-element list otherwise, rewrite the
store in full, and append to the in-memory downloaded list. -/
def appendJsonToListInFile (x : Json) (fn : String) (s : ClientState) :
    ClientState × Option PyError :=
  match s.ledgerFile with
  | LedgerFile.content j =>
    match pyLen j with
    | Except.error e => (s, some e)
    | Except.ok n =>
      if 0 < n then
        match pyAppend j x with
        | Except.error e => (s, some e)
        | Except.ok j2 => appendWriteBack x j2 s
      else appendWriteBack x (Json.arr [x]) s
  | LedgerFile.missing =>
    appendWriteBack x (Json.arr [x])
      { s with log := s.log ++ [msgCreatingHistory fn] }
  | LedgerFile.invalid =>
    appendWriteBack x (Json.arr [x])
      { s with log := s.log ++ [msgUnableToReadAppend fn, msgIgnoredCreateNew] }

/-- `recordFieldsOk`: the per-record body of
`__is_json_of_downloaded_file_info_in_correct_format` —
`file_info.get` with validly-typed defaults, then `isinstance` checks. -/
def recordFieldsOk (fields : List (String × Json)) : Bool :=
  isinstanceStr ((lookupField "name" fields).getD (Json.str "")) &&
  isinstanceInt ((lookupField "size" fields).getD (Json.num 0)) &&
  isinstanceStr ((lookupField "modified_date" fields).getD (Json.str ""))

/-- Loop of the format check over the iterated items: `.get` on a
non-dict item raises `AttributeError`; the first badly-typed record
returns `False`. -/
def checkRecords : List Json → Except PyError Bool
  | [] => Except.ok true
  | Json.obj fields :: rest =>
    if recordFieldsOk fields then checkRecords rest else Except.ok false
  | _ :: _ => Except.error PyError.attributeError

/-- `__is_json_of_downloaded_file_info_in_correct_format`: iterate the
loaded value (raising `TypeError` when it is not iterable) and check
every record's shape. -/
def isJsonOfDownloadedFileInfoInCorrectFormat (j : Json) : Except PyError Bool :=
  match pyIter j with
  | Except.error e => Except.error e
  | Except.ok items => checkRecords items

/-- `__get_previously_downloaded_files`: `open(self.__history_filename)`
raises `TypeError` when no filename is configured; `FileNotFoundError`
falls through to `return []`; a JSON decode error logs and returns `[]`;
decodable content is shape-checked (the check itself may raise) and
adopted into the in-memory list only when the check passes. -/
def getPreviouslyDownloadedFiles (s : ClientState) :
    ClientState × Except PyError Json :=
  match s.historyFilename with
  | none => (s, Except.error PyError.typeError)
  | some fn =>
    match s.ledgerFile with
    | LedgerFile.missing => (s, Except.ok (Json.arr []))
    | LedgerFile.invalid =>
      ({ s with log := s.log ++ [msgUnableToReadLoad fn, msgIgnoredProceed] },
        Except.ok (Json.arr []))
    | LedgerFile.content j =>
      match isJsonOfDownloadedFileInfoInCorrectFormat j with
      | Except.error e => (s, Except.error e)
      | Except.ok true => ({ s with downloadedFiles := j }, Except.ok j)
      | Except.ok false => (s, Except.ok j)

/-- `__havent_been_downloaded`: the namedtuple as a dict compares
unequal (Python `!=`) to every element of the in-memory downloaded
list; iterating a non-iterable downloaded list raises. -/
def haventBeenDownloaded (s : ClientState) (f : FTPFile) : Except PyError Bool :=
  match pyIter s.downloadedFiles with
  | Except.error e => Except.error e
  | Except.ok items => Except.ok (items.all (fun d => !(pyEq (asdict f) d)))

/-- `__download`: log, attempt the RETR transfer (recording the attempt);
a raise inside the `try` logs the failure and calls `sys.exit()`;
on success the history append runs only when a filename is configured. -/
def downloadOne (w : World) (f : FTPFile) (s : ClientState) :
    ClientState × Option PyError :=
  let s1 : ClientState :=
    { s with attempted := s.attempted ++ [f.name]
             log := s.log ++ [msgDownloading f.name] }
  if w.transfer f.name then
    match s1.historyFilename with
    | none => (s1, none)
    | some fn => appendJsonToListInFile (asdict f) fn s1
  else
    ({ s1 with log := s1.log ++ [msgFailedDownload f.name] }, some PyError.systemExit)

/-- The user-predicate filter of `download_files_in_directory`: entries
pass when no `file_checking_function` is configured or when it returns
`True`. -/
def keepFile (s : ClientState) (f : FTPFile) : Bool :=
  match s.fileCheckingFunction with
  | some p => p f
  | none => true

/-- The `for download_file in iter(files)` loop of
`download_files_in_directory` with its two chained lazy `filter`s: for
each listed entry, the user predicate and then the membership predicate
are evaluated against the state current at that iteration, and a raise
(including the `sys.exit` of a failed transfer) stops the loop. -/
def downloadLoop (w : World) : List FTPFile → ClientState → ClientState × Option PyError
  | [], s => (s, none)
  | f :: rest, s =>
    if keepFile s f then
      match haventBeenDownloaded s f with
      | Except.error e => (s, some e)
      | Except.ok false => downloadLoop w rest s
      | Except.ok true =>
        match downloadOne w f s with
        | (s2, some e) => (s2, some e)
        | (s2, none) => downloadLoop w rest s2
    else downloadLoop w rest s

/-- `download_files_in_directory`: lazily load the history when the
in-memory downloaded list is empty, list the target path, then run the
filtered download loop. -/
def downloadFilesInDirectory (w : World) (path : String) (s : ClientState) :
    ClientState × Option PyError :=
  match pyLen s.downloadedFiles with
  | Except.error e => (s, some e)
  | Except.ok n =>
    let step1 : ClientState × Option PyError :=
      if n < 1 then
        match getPreviouslyDownloadedFiles s with
        | (s1, Except.error e) => (s1, some e)
        | (s1, Except.ok _) => (s1, none)
      else (s, none)
    match step1 with
    | (s1, some e) => (s1, some e)
    | (s1, none) =>
      match getFiles w path s1 with
      | (Except.error e, s2, _) => (s2, some e)
      | (Except.ok fs, s2, _) => downloadLoop w fs s2

/-- The sample listing line of the specification. -/
def sampleListingLine : String :=
  "-rw-r--r-- 1 ftp ftp 11134012 Mar 01 2018 ipg150519.tar.gz"

/-- The entry the sample listing line parses to. -/
def sampleEntry : FTPFile := ⟨"ipg150519.tar.gz", 11134012, "Mar 01 2018"⟩

/-- A concrete world whose listing always returns the sample line and
whose transport operations all succeed (the SIZE probe raises). -/
def worldListing : World :=
  { server := fun _ => [sampleListingLine]
    probeSize := fun _ => none
    transfer := fun _ => true
    cwdFails := fun _ => false }

/-- A concrete world identical to `worldListing` except that every RETR
transfer raises. -/
def worldFailingTransfer : World :=
  { server := fun _ => [sampleListingLine]
    probeSize := fun _ => none
    transfer := fun _ => false
    cwdFails := fun _ => false }

/-- A fresh client configured with a history filename. -/
def historyState : ClientState :=
  freshState (some "download_history.json") none false

/-- History file present and parseable, but its JSON is the number 5. -/
def ledgerIsNumberState : ClientState :=
  { historyState with ledgerFile := LedgerFile.content (Json.num 5) }

/-- History file present but not decodable as JSON. -/
def ledgerInvalidState : ClientState :=
  { historyState with ledgerFile := LedgerFile.invalid }

/-- History file holding an empty JSON array. -/
def ledgerEmptyArrayState : ClientState :=
  { historyState with ledgerFile := LedgerFile.content (Json.arr []) }

/-- History file holding one record whose `name` field is a number. -/
def ledgerBadRecordState : ClientState :=
  { historyState with
      ledgerFile := LedgerFile.content (Json.arr [Json.obj [("name", Json.num 0)]]) }

/-- A client whose current-directory caches are populated. -/
def cachedState : ClientState :=
  { freshState none none false with
      files := [sampleEntry], directories := [sampleEntry] }

/-- Python `==` is reflexive on the dict form of a namedtuple. -/
theorem pyEq_asdict_self (f : FTPFile) : pyEq (asdict f) (asdict f) = true := by
  simp [asdict, pyEq, pyEqFields, lookupField]

/-- The format-check loop cannot raise on a list whose items are all
JSON objects. -/
theorem checkRecords_allObj (recs : List Json)
    (hobj : ∀ r ∈ recs, ∃ g, r = Json.obj g) :
    ∃ b, checkRecords recs = Except.ok b := by
  induction recs with
  | nil => exact ⟨true, rfl⟩
  | cons r rest ih =>
    obtain ⟨g, rfl⟩ := hobj r (List.mem_cons_self r rest)
    by_cases hok : recordFieldsOk g
    · obtain ⟨b, hb⟩ := ih (fun r hr => hobj r (List.mem_cons_of_mem _ hr))
      exact ⟨b, by simp [checkRecords, hok, hb]⟩
    · exact ⟨false, by simp [checkRecords, hok]⟩

/-- A record with a present but badly-typed `name`, `size` or
`modified_date` field fails the per-record shape check. -/
theorem recordFieldsOk_eq_false_of_bad (fields : List (String × Json))
    (hbad :
      (∃ v, lookupField "name" fields = some v ∧ isinstanceStr v = false) ∨
      (∃ v, lookupField "size" fields = some v ∧ isinstanceInt v = false) ∨
      (∃ v, lookupField "modified_date" fields = some v ∧ isinstanceStr v = false)) :
    recordFieldsOk fields = false := by
  rcases hbad with ⟨v, hl, hv⟩ | ⟨v, hl, hv⟩ | ⟨v, hl, hv⟩ <;>
    simp [recordFieldsOk, hl, hv]

/-- C1: the spec (and the code's own comment, which reads a SIZE
exception as the directory signal) requires a failed probe to classify
the entry as a directory; the code instead sets `have_filesize = False`
and the conjunction `extension == '' and have_filesize` then returns
`False` — every name whose probe fails is classified as NOT a
directory, extension or not. -/
theorem c1_probe_failure_classifies_as_file (name : String)
    (probe : String → Option Int) (hp : probe name = none) :
    isDirectory true probe name = false := by
  simp [isDirectory, hp]

/-- C1 witness: the extensionless name `092018` with a failing probe is
classified as not-a-directory. -/
theorem c1_probe_failure_classifies_as_file_witness :
    isDirectory true (fun _ => none) "092018" = false :=
  c1_probe_failure_classifies_as_file "092018" (fun _ => none) rfl

/-- C2: with no `history_filename` configured, the first
`download_files_in_directory` call runs
`__get_previously_downloaded_files`, whose `open(None)` raises an
uncaught `TypeError` — the synchronize call raises instead of
proceeding, contradicting the docstring "If None, no details are
stored". -/
theorem c2_no_history_filename_raises (w : World) (path : String)
    (fcf : Option (FTPFile → Bool)) (rc : Bool) :
    downloadFilesInDirectory w path (freshState none fcf rc) =
      (freshState none fcf rc, some PyError.typeError) := rfl

/-- C5: a listing line with at least 6 whitespace tokens whose 5th
token parses as an integer yields the entry (last token, 5th-token
value, middle tokens joined by single spaces); the sample line yields
`FTPFile "ipg150519.tar.gz" 11134012 "Mar 01 2018"`. -/
theorem c5_listing_parse_rule (line : String) (v : Int)
    (h6 : 6 ≤ (pySplit line).length)
    (hv : pyIntOfString ((pySplit line).getD 4 "") = some v) :
    parseLine line =
      Except.ok
        ⟨(pySplit line).getLastD "", v,
          joinWithSpace (((pySplit line).drop 5).dropLast)⟩ ∧
    splitFileInfosFromStrings [sampleListingLine] = Except.ok [sampleEntry] := by
  refine ⟨?_, rfl⟩
  simp only [parseLine]
  rw [if_pos h6, hv]

/-- C5 witness: the parse rule applied to the sample line itself. -/
theorem c5_listing_parse_rule_witness :
    (parseLine sampleListingLine =
      Except.ok
        ⟨(pySplit sampleListingLine).getLastD "", 11134012,
          joinWithSpace (((pySplit sampleListingLine).drop 5).dropLast)⟩) ∧
    splitFileInfosFromStrings [sampleListingLine] = Except.ok [sampleEntry] :=
  c5_listing_parse_rule sampleListingLine 11134012 (by decide) (by decide)

/-- C8: with the probe mode disabled, `have_filesize` stays `True` and
the classifier returns the extension test alone, so any name with a
non-empty extension is classified as a file whatever the remote
oracles say. -/
theorem c8_extension_is_file_without_probe (name : String)
    (probe : String → Option Int) (hx : splitextExt name ≠ "") :
    isDirectory false probe name = false := by
  simp [isDirectory, hx]

/-- C8 witness: `a.gz` has extension `.gz` and is classified as a file. -/
theorem c8_extension_is_file_without_probe_witness :
    isDirectory false (fun _ => some 7) "a.gz" = false :=
  c8_extension_is_file_without_probe "a.gz" (fun _ => some 7) (by decide)

/-- C3 counterexample: a store whose content decodes as the JSON number
5 is "not parseable as the expected format", yet the load raises a
`TypeError` (from iterating an `int` in the shape check) instead of
logging and yielding an empty set. -/
theorem c3_load_counterexample :
    (getPreviouslyDownloadedFiles ledgerIsNumberState).2 =
      Except.error PyError.typeError := rfl

/-- C3 (amended): with a history filename configured, a missing store
loads as the empty list without logging; a store that is not decodable
as JSON logs the warning pair and loads as the empty list; and a store
decoding to a JSON array of objects never raises — but JSON content of
any other shape can raise through the shape check. -/
theorem c3_load_never_raises_amended :
    (∀ (s : ClientState) (fn : String),
      s.historyFilename = some fn → s.ledgerFile = LedgerFile.missing →
      getPreviouslyDownloadedFiles s = (s, Except.ok (Json.arr []))) ∧
    (∀ (s : ClientState) (fn : String),
      s.historyFilename = some fn → s.ledgerFile = LedgerFile.invalid →
      (getPreviouslyDownloadedFiles s).2 = Except.ok (Json.arr []) ∧
      (getPreviouslyDownloadedFiles s).1.log =
        s.log ++ [msgUnableToReadLoad fn, msgIgnoredProceed]) ∧
    (∀ (s : ClientState) (fn : String) (recs : List Json),
      s.historyFilename = some fn →
      s.ledgerFile = LedgerFile.content (Json.arr recs) →
      (∀ r ∈ recs, ∃ g, r = Json.obj g) →
      (getPreviouslyDownloadedFiles s).2 = Except.ok (Json.arr recs)) := by
  refine ⟨?_, ?_, ?_⟩
  · intro s fn h1 h2
    simp [getPreviouslyDownloadedFiles, h1, h2]
  · intro s fn h1 h2
    simp [getPreviouslyDownloadedFiles, h1, h2]
  · intro s fn recs h1 h2 hobj
    obtain ⟨b, hb⟩ := checkRecords_allObj recs hobj
    cases b <;>
      simp [getPreviouslyDownloadedFiles, h1, h2,
        isJsonOfDownloadedFileInfoInCorrectFormat, pyIter, hb]

/-- C3 witness: the three amended branches at concrete states. -/
theorem c3_load_never_raises_amended_witness :
    (getPreviouslyDownloadedFiles historyState =
      (historyState, Except.ok (Json.arr []))) ∧
    ((getPreviouslyDownloadedFiles ledgerInvalidState).2 = Except.ok (Json.arr []) ∧
      (getPreviouslyDownloadedFiles ledgerInvalidState).1.log =
        ledgerInvalidState.log ++
          [msgUnableToReadLoad "download_history.json", msgIgnoredProceed]) ∧
    (getPreviouslyDownloadedFiles ledgerEmptyArrayState).2 = Except.ok (Json.arr []) :=
  ⟨c3_load_never_raises_amended.1 historyState "download_history.json" rfl rfl,
   c3_load_never_raises_amended.2.1 ledgerInvalidState "download_history.json" rfl rfl,
   c3_load_never_raises_amended.2.2 ledgerEmptyArrayState "download_history.json" []
     rfl rfl (by intro r hr; cases hr)⟩

/-- C4 counterexample: the record set holding one record that lacks the
`name` and `modified_date` fields and whose `size` is the negative
integer -5 is accepted by the shape check (the claim says it must be
rejected): `dict.get` substitutes validly-typed defaults for missing
fields and `isinstance(size, int)` accepts negative integers. -/
theorem c4_shape_check_counterexample :
    isJsonOfDownloadedFileInfoInCorrectFormat
        (Json.arr [Json.obj [("size", Json.num (-5))]]) =
      Except.ok true := rfl

/-- C4 (amended): the shape check rejects a loaded record array
containing an object record with a PRESENT `name` field that is not
text, a PRESENT `size` field that is not an integer (negative integers
and booleans count as integers), or a PRESENT `modified_date` field
that is not text; missing fields are defaulted and accepted.  On
rejection the load leaves the in-memory downloaded list unchanged, so
the engine proceeds as if the ledger were empty. -/
theorem c4_shape_check_amended :
    (∀ (recs : List Json) (fields : List (String × Json)),
      (∀ r ∈ recs, ∃ g, r = Json.obj g) →
      Json.obj fields ∈ recs →
      ((∃ v, lookupField "name" fields = some v ∧ isinstanceStr v = false) ∨
       (∃ v, lookupField "size" fields = some v ∧ isinstanceInt v = false) ∨
       (∃ v, lookupField "modified_date" fields = some v ∧ isinstanceStr v = false)) →
      checkRecords recs = Except.ok false) ∧
    (∀ (s : ClientState) (fn : String) (j : Json),
      s.historyFilename = some fn → s.ledgerFile = LedgerFile.content j →
      isJsonOfDownloadedFileInfoInCorrectFormat j = Except.ok false →
      getPreviouslyDownloadedFiles s = (s, Except.ok j)) := by
  constructor
  · intro recs fields hobj hmem hbad
    induction recs with
    | nil => cases hmem
    | cons r rest ih =>
      obtain ⟨g, rfl⟩ := hobj r (List.mem_cons_self r rest)
      rcases List.mem_cons.mp hmem with heq | htail
      · obtain rfl : fields = g := by injection heq
        simp [checkRecords, recordFieldsOk_eq_false_of_bad fields hbad]
      · by_cases hok : recordFieldsOk g
        · simpa [checkRecords, hok] using
            ih (fun r hr => hobj r (List.mem_cons_of_mem _ hr)) htail
        · simp [checkRecords, hok]
  · intro s fn j h1 h2 h3
    simp [getPreviouslyDownloadedFiles, h1, h2, h3]

/-- C4 witness: a record whose `name` is the number 0 is rejected, and
rejection leaves the client state untouched. -/
theorem c4_shape_check_amended_witness :
    checkRecords [Json.obj [("name", Json.num 0)]] = Except.ok false ∧
    getPreviouslyDownloadedFiles ledgerBadRecordState =
      (ledgerBadRecordState, Except.ok (Json.arr [Json.obj [("name", Json.num 0)]])) :=
  ⟨c4_shape_check_amended.1 [Json.obj [("name", Json.num 0)]] [("name", Json.num 0)]
      (by intro r hr; rw [List.mem_singleton] at hr; exact ⟨_, hr⟩)
      (by rw [List.mem_singleton])
      (Or.inl ⟨Json.num 0, rfl, rfl⟩),
   c4_shape_check_amended.2 ledgerBadRecordState "download_history.json"
      (Json.arr [Json.obj [("name", Json.num 0)]]) rfl rfl rfl⟩

/-- C7: a successful `cwd` clears both cached listings, so the next
default-path `get_files('')` or `get_directories('')` issues a fresh
LIST request; an explicit non-empty path always issues a fresh LIST
request, whatever the cache holds. -/
theorem c7_cwd_invalidates_cache (w : World) (p q : String) (s : ClientState)
    (hcwd : w.cwdFails p = false) (hq : q ≠ "") :
    (cwdOp w p s).1.files = [] ∧
    (cwdOp w p s).1.directories = [] ∧
    (getFiles w "" (cwdOp w p s).1).2.2 = [""] ∧
    (getDirectories w "" (cwdOp w p s).1).2.2 = [""] ∧
    (getFiles w q s).2.2 = [q] ∧
    (getDirectories w q s).2.2 = [q] := by
  have hc : (cwdOp w p s).1 = { s with files := [], directories := [] } := by
    simp [cwdOp, hcwd]
  refine ⟨by rw [hc], by rw [hc], ?_, ?_, ?_, ?_⟩
  · rw [hc]
    rcases hu : updateFilesAndDirectoriesInCwd w { s with files := [], directories := [] }
      with ⟨s1, e⟩
    cases e <;> simp [getFiles, hu]
  · rw [hc]
    rcases hu : updateFilesAndDirectoriesInCwd w { s with files := [], directories := [] }
      with ⟨s1, e⟩
    cases e <;> simp [getDirectories, hu]
  · rcases hg : getFileInfos w q with e | infos <;> simp [getFiles, hq, hg]
  · rcases hg : getFileInfos w q with e | infos <;> simp [getDirectories, hq, hg]

/-- C7 witness: after `cwd "sub"` on a populated cache, both caches are
empty and default-path listings issue fresh requests; an explicit path
issues a fresh request. -/
theorem c7_cwd_invalidates_cache_witness :
    (cwdOp worldListing "sub" cachedState).1.files = [] ∧
    (cwdOp worldListing "sub" cachedState).1.directories = [] ∧
    (getFiles worldListing "" (cwdOp worldListing "sub" cachedState).1).2.2 = [""] ∧
    (getDirectories worldListing "" (cwdOp worldListing "sub" cachedState).1).2.2 = [""] ∧
    (getFiles worldListing "092018" cachedState).2.2 = ["092018"] ∧
    (getDirectories worldListing "092018" cachedState).2.2 = ["092018"] :=
  c7_cwd_invalidates_cache worldListing "sub" "092018" cachedState rfl (by decide)

/-- C10: a listing request for an explicit non-empty path leaves both
cached lists untouched, while a default-path request on an empty file
cache issues one LIST request whose partition repopulates the file and
directory caches together. -/
theorem c10_explicit_path_preserves_cache (w : World) (s : ClientState) :
    (∀ q, q ≠ "" →
      (getFiles w q s).2.1 = s ∧ (getDirectories w q s).2.1 = s) ∧
    (∀ infos, s.files = [] → getFileInfos w "" = Except.ok infos →
      (getFiles w "" s).2.1 =
        { s with
            files := (splitFilesAndDirectories w s.requestCheckIsDir infos).1
            directories := (splitFilesAndDirectories w s.requestCheckIsDir infos).2 } ∧
      (getFiles w "" s).2.2 = [""]) := by
  constructor
  · intro q hq
    constructor
    · rcases hg : getFileInfos w q with e | infos <;> simp [getFiles, hq, hg]
    · rcases hg : getFileInfos w q with e | infos <;> simp [getDirectories, hq, hg]
  · intro infos hf hinfos
    constructor <;>
      simp [getFiles, hf, updateFilesAndDirectoriesInCwd, hinfos, List.isEmpty_iff]

/-- C10 witness: an explicit-path listing leaves a populated cache
unchanged, and a default-path listing on a fresh client populates both
caches from the single sample-line request. -/
theorem c10_explicit_path_preserves_cache_witness :
    ((getFiles worldListing "092018" cachedState).2.1 = cachedState ∧
      (getDirectories worldListing "092018" cachedState).2.1 = cachedState) ∧
    ((getFiles worldListing "" (freshState none none false)).2.1 =
      { freshState none none false with
          files :=
            (splitFilesAndDirectories worldListing
              (freshState none none false).requestCheckIsDir [sampleEntry]).1
          directories :=
            (splitFilesAndDirectories worldListing
              (freshState none none false).requestCheckIsDir [sampleEntry]).2 } ∧
      (getFiles worldListing "" (freshState none none false)).2.2 = [""]) :=
  ⟨(c10_explicit_path_preserves_cache worldListing cachedState).1 "092018" (by decide),
   (c10_explicit_path_preserves_cache worldListing (freshState none none false)).2
      [sampleEntry] rfl rfl⟩

/-- C6: after `append(e)` the in-memory membership query flags `e`
without any reload; appending the same structural entry twice stores
two ledger records while membership keeps flagging `e`; and the lazy
pre-transfer filter of the download loop skips an entry the membership
query flags. -/
theorem c6_append_then_contains (e : FTPFile) (s : ClientState) (l : List Json)
    (fn : String)
    (hd : s.downloadedFiles = Json.arr l) (hl : s.ledgerFile = LedgerFile.missing) :
    (appendJsonToListInFile (asdict e) fn s).2 = none ∧
    haventBeenDownloaded (appendJsonToListInFile (asdict e) fn s).1 e =
      Except.ok false ∧
    (appendJsonToListInFile (asdict e) fn
        (appendJsonToListInFile (asdict e) fn s).1).1.ledgerFile =
      LedgerFile.content (Json.arr [asdict e, asdict e]) ∧
    haventBeenDownloaded
        (appendJsonToListInFile (asdict e) fn
          (appendJsonToListInFile (asdict e) fn s).1).1 e =
      Except.ok false ∧
    (∀ (w : World) (rest : List FTPFile),
      downloadLoop w (e :: rest) (appendJsonToListInFile (asdict e) fn s).1 =
        downloadLoop w rest (appendJsonToListInFile (asdict e) fn s).1) := by
  have h1 : appendJsonToListInFile (asdict e) fn s =
      ({ s with
          downloadedFiles := Json.arr (l ++ [asdict e])
          ledgerFile := LedgerFile.content (Json.arr [asdict e])
          log := s.log ++ [msgCreatingHistory fn] }, none) := by
    simp [appendJsonToListInFile, hl, appendWriteBack, pyAppend, hd]
  have h2 : haventBeenDownloaded (appendJsonToListInFile (asdict e) fn s).1 e =
      Except.ok false := by
    rw [h1]
    simp [haventBeenDownloaded, pyIter, List.all_append, pyEq_asdict_self]
  have h3 : appendJsonToListInFile (asdict e) fn
        (appendJsonToListInFile (asdict e) fn s).1 =
      ({ s with
          downloadedFiles := Json.arr ((l ++ [asdict e]) ++ [asdict e])
          ledgerFile := LedgerFile.content (Json.arr [asdict e, asdict e])
          log := s.log ++ [msgCreatingHistory fn] }, none) := by
    rw [h1]
    simp [appendJsonToListInFile, appendWriteBack, pyLen, pyAppend]
  have h4 : haventBeenDownloaded
        (appendJsonToListInFile (asdict e) fn
          (appendJsonToListInFile (asdict e) fn s).1).1 e =
      Except.ok false := by
    rw [h3]
    simp [haventBeenDownloaded, pyIter, List.all_append, pyEq_asdict_self]
  refine ⟨by rw [h1], h2, by rw [h3], h4, ?_⟩
  intro w rest
  by_cases hk : keepFile (appendJsonToListInFile (asdict e) fn s).1 e
  · simp [downloadLoop, hk, h2]
  · simp [downloadLoop, hk]

/-- C6 witness: the round-trip at the sample entry from a fresh client
with a configured history file. -/
theorem c6_append_then_contains_witness :
    (appendJsonToListInFile (asdict sampleEntry) "download_history.json"
        historyState).2 = none ∧
    haventBeenDownloaded
        (appendJsonToListInFile (asdict sampleEntry) "download_history.json"
          historyState).1 sampleEntry =
      Except.ok false ∧
    (appendJsonToListInFile (asdict sampleEntry) "download_history.json"
        (appendJsonToListInFile (asdict sampleEntry) "download_history.json"
          historyState).1).1.ledgerFile =
      LedgerFile.content (Json.arr [asdict sampleEntry, asdict sampleEntry]) ∧
    haventBeenDownloaded
        (appendJsonToListInFile (asdict sampleEntry) "download_history.json"
          (appendJsonToListInFile (asdict sampleEntry) "download_history.json"
            historyState).1).1 sampleEntry =
      Except.ok false ∧
    downloadLoop worldListing [sampleEntry]
        (appendJsonToListInFile (asdict sampleEntry) "download_history.json"
          historyState).1 =
      downloadLoop worldListing []
        (appendJsonToListInFile (asdict sampleEntry) "download_history.json"
          historyState).1 := by
  obtain ⟨a, b, c, d, h⟩ :=
    c6_append_then_contains sampleEntry historyState [] "download_history.json" rfl rfl
  exact ⟨a, b, c, d, h worldListing []⟩

/-- C9: when a surviving entry's transfer raises, the loop logs the
failure, appends no ledger record (in-memory downloaded list and
history file both unchanged), attempts no further entry, and the
invocation terminates with `sys.exit` — fail-fast, no skip-and-continue
and no retry. -/
theorem c9_transfer_failure_fail_fast (w : World) (f : FTPFile)
    (rest : List FTPFile) (s : ClientState)
    (hkeep : keepFile s f = true)
    (hnew : haventBeenDownloaded s f = Except.ok true)
    (hfail : w.transfer f.name = false) :
    (downloadLoop w (f :: rest) s).2 = some PyError.systemExit ∧
    (downloadLoop w (f :: rest) s).1.downloadedFiles = s.downloadedFiles ∧
    (downloadLoop w (f :: rest) s).1.ledgerFile = s.ledgerFile ∧
    (downloadLoop w (f :: rest) s).1.attempted = s.attempted ++ [f.name] ∧
    (downloadLoop w (f :: rest) s).1.log =
      s.log ++ [msgDownloading f.name, msgFailedDownload f.name] := by
  have hstep : downloadLoop w (f :: rest) s =
      ({ s with
          attempted := s.attempted ++ [f.name]
          log := s.log ++ [msgDownloading f.name, msgFailedDownload f.name] },
        some PyError.systemExit) := by
    simp [downloadLoop, hkeep, hnew, downloadOne, hfail, List.append_assoc]
  rw [hstep]
  exact ⟨rfl, rfl, rfl, rfl, rfl⟩

/-- C9 witness: a failing transfer of the sample entry from a fresh
client stops the invocation with only that one attempt, the failure
logged and nothing recorded. -/
theorem c9_transfer_failure_fail_fast_witness :
    (downloadLoop worldFailingTransfer [sampleEntry] historyState).2 =
      some PyError.systemExit ∧
    (downloadLoop worldFailingTransfer [sampleEntry] historyState).1.downloadedFiles =
      historyState.downloadedFiles ∧
    (downloadLoop worldFailingTransfer [sampleEntry] historyState).1.ledgerFile =
      historyState.ledgerFile ∧
    (downloadLoop worldFailingTransfer [sampleEntry] historyState).1.attempted =
      historyState.attempted ++ [sampleEntry.name] ∧
    (downloadLoop worldFailingTransfer [sampleEntry] historyState).1.log =
      historyState.log ++
        [msgDownloading sampleEntry.name, msgFailedDownload sampleEntry.name] :=
  c9_transfer_failure_fail_fast worldFailingTransfer sampleEntry [] historyState
    rfl rfl rfl
